import Mathlib

/-!
Formal model of the remote-orchestration core of `geomesa_cassandra_tools`
(`remote.py`, `node.py`, `cluster.py`, `geomesa_cassandra.py`).

Remote effects are modelled by passing each command's outcome in explicitly:
an `Except PyErr CommandResult` is what running one remote command yields,
`Except.error` standing for a raised Python exception (failed ssh connect,
failed dispatch, ...).  Pure code (parsers, result aggregation, control flow)
is translated function by function from the source.
-/

/-- A raised Python exception, as a value. -/
inductive PyErr
  /-- Attribute lookup failed on an object (Python `AttributeError`). -/
  | attributeError
  /-- An operation was applied to a value of the wrong shape, e.g. iterating
      a non-iterable (Python `TypeError`). -/
  | typeError
  /-- A generic `raise Exception(msg)`. -/
  | exception (msg : String)
  /-- The error raised by `run_command` in `geomesa_cassandra.py` when
      `raise_error` is set and stderr is non-empty. -/
  | commandError (msg : String)
  deriving Repr, DecidableEq

/-- The relevant fields of an `asyncssh` process result: `result.stdout`,
`result.stderr`, `result.exit_status`. -/
structure CommandResult where
  stdout : String
  stderr : String
  exit_status : Int
  deriving Repr, DecidableEq

/-- The group dictionary produced by the compaction line regex
`(?P<id>[0-9a-zA-Z-_]+)\s+(?P<type>[0-9a-zA-Z_]+)\s+(?P<keyspace>[0-9a-zA-Z-_]+)\s+(?P<table>[0-9a-zA-Z-_]+)`
of `parse_compaction` (`geomesa_cassandra.py`) and `Node._parse_compaction_output`
(`node.py`).  The regex group named `type` is the field `kind` here. -/
structure CompactionRecord where
  id : String
  kind : String
  keyspace : String
  table : String
  deriving Repr, DecidableEq

/-- The group dictionary produced by the snapshot line regex
`(?P<name>[0-9a-zA-Z-_]+)\s+(?P<keyspace>[0-9a-zA-Z_]+)\s+(?P<table>[0-9a-zA-Z-_]+)`
of `parse_snapshot` (`geomesa_cassandra.py`) and `Node._parse_snapshot` (`node.py`). -/
structure SnapshotRecord where
  name : String
  keyspace : String
  table : String
  deriving Repr, DecidableEq

/-- Membership in the regex character class `[0-9a-zA-Z-_]` (alphanumerics,
dash, underscore; the dash after `A-Z` is literal). -/
def isIdentChar (c : Char) : Bool :=
  c.isAlphanum || c == '-' || c == '_'

/-- Membership in the regex character class `[0-9a-zA-Z_]` (no dash). -/
def isWordChar (c : Char) : Bool :=
  c.isAlphanum || c == '_'

/-- Membership in the regex class `\s`, restricted to its ASCII members
(space, tab, newline, carriage return, vertical tab, form feed); the inputs
these parsers receive are ASCII tool output. -/
def isSpaceChar (c : Char) : Bool :=
  c == ' ' || c == '\t' || c == '\n' || c == '\r' || c == '\x0b' || c == '\x0c'

/-- Greedy `C+` token: the maximal (non-empty) prefix of characters
satisfying `p`, together with the rest of the input; `none` when the first
character does not satisfy `p`.

For the two regexes above this greedy reading is exactly the backtracking
semantics of `re.match`: every character class used is disjoint from `\s`,
so a shorter split of any `C+` group would have to be followed by a
character that is still in `C` (hence not whitespace), and the mandatory
`\s+` that follows each non-final group could never match. -/
def token (p : Char → Bool) (cs : List Char) : Option (List Char × List Char) :=
  match cs.span p with
  | ([], _) => none
  | (tk, rest) => some (tk, rest)

/-- Model of `parse_compaction` (`geomesa_cassandra.py`) and of the identical
`Node._parse_compaction_output` (`node.py`): `re.match` of the compaction
regex, returning the group dictionary, or `None` when the line does not match.
`re.match` anchors at the start of the line but allows trailing text, which is
why nothing is required after the final group. -/
def parse_compaction (text : String) : Option CompactionRecord := do
  let (idT, r1) ← token isIdentChar text.toList
  let (_, r2) ← token isSpaceChar r1
  let (kindT, r3) ← token isWordChar r2
  let (_, r4) ← token isSpaceChar r3
  let (ksT, r5) ← token isIdentChar r4
  let (_, r6) ← token isSpaceChar r5
  let (tblT, _) ← token isIdentChar r6
  pure ⟨String.mk idT, String.mk kindT, String.mk ksT, String.mk tblT⟩

/-- Model of `parse_snapshot` (`geomesa_cassandra.py`) and of the identical
`Node._parse_snapshot` (`node.py`). -/
def parse_snapshot (text : String) : Option SnapshotRecord := do
  let (nameT, r1) ← token isIdentChar text.toList
  let (_, r2) ← token isSpaceChar r1
  let (ksT, r3) ← token isWordChar r2
  let (_, r4) ← token isSpaceChar r3
  let (tblT, _) ← token isIdentChar r4
  pure ⟨String.mk nameT, String.mk ksT, String.mk tblT⟩

/-- Accumulator pass behind `splitlines`: `acc` holds the pending line's
characters in reverse. -/
def splitlinesAux : List Char → List Char → List String
  | acc, [] =>
    match acc with
    | [] => []
    | _ => [String.mk acc.reverse]
  | acc, '\n' :: rest => String.mk acc.reverse :: splitlinesAux [] rest
  | acc, c :: rest => splitlinesAux (c :: acc) rest

/-- Python `str.splitlines` for `\n`-separated text (the separator occurring
in the modelled tool output): a trailing final newline does not contribute an
extra empty line, and the empty string has no lines. -/
def splitlines (s : String) : List String :=
  splitlinesAux [] s.toList

/-- Decidable equality for captured-exception results, so that concrete runs
can be checked by evaluation. -/
instance {ε α : Type} [DecidableEq ε] [DecidableEq α] : DecidableEq (Except ε α)
  | .error a, .error b =>
    if h : a = b then isTrue (by rw [h])
    else isFalse (fun hc => by cases hc; exact h rfl)
  | .error _, .ok _ => isFalse (fun hc => by cases hc)
  | .ok _, .error _ => isFalse (fun hc => by cases hc)
  | .ok a, .ok b =>
    if h : a = b then isTrue (by rw [h])
    else isFalse (fun hc => by cases hc; exact h rfl)

/-- Semantics of `asyncio.gather(*tasks, return_exceptions=True)`: each task's
outcome (its value, or the exception it raised) is already an `Except`, and
gather returns exactly those outcomes, one per task, in task order. -/
def gather_return_exceptions {ε α : Type} (tasks : List (Except ε α)) : List (Except ε α) :=
  tasks

namespace Cluster

/-- Model of `Cluster._run` (`cluster.py` lines 147-148) dispatching one task
per node: `op node` is the outcome the node's task produces when awaited
(its standalone success value, or the exception it raised, captured because
of `return_exceptions=True`). -/
def run {α : Type} (nodes : List String) (op : String → Except PyErr α) :
    List (Except PyErr α) :=
  gather_return_exceptions (nodes.map op)

end Cluster

/-- Model of the flattening list comprehension
`[item for node_compactions in self._run(...) for item in node_compactions]`
in `Cluster.find_table_compactions` (and its snapshot twin): the gathered
per-node results are iterated left to right; reaching an entry that is a
captured `Exception` value raises `TypeError`, because an exception object is
not iterable. -/
def flatten_gather_results {α : Type} : List (Except PyErr (List α)) → Except PyErr (List α)
  | [] => .ok []
  | .ok xs :: rest =>
    match flatten_gather_results rest with
    | .error e => .error e
    | .ok ys => .ok (xs ++ ys)
  | .error _ :: _ => .error .typeError

namespace Node

/-- Model of `Node.find_table_compactions` / `Node.async_find_table_compactions`
applied to the stdout of `nodetool compactionstats`: parse each line, keep the
records of the requested keyspace and table, return their ids. -/
def find_table_compactions (keyspace table : String) (stdout : String) : List String :=
  (((splitlines stdout).filterMap parse_compaction).filter
    (fun c => c.keyspace == keyspace && c.table == table)).map (fun c => c.id)

/-- Python string indexing `s[0]` as used on a non-empty string: the first
character, as a one-character string. -/
def firstChar (s : String) : String :=
  match s.toList with
  | [] => ""
  | c :: _ => String.mk [c]

/-- Model of `Node.find_table_snapshots` (`node.py`, synchronous path; the
asynchronous path has the same body).  `self.listsnapshots()` returns the pair
`(stdout, stderr)`; the comprehension
`[result for result in self.listsnapshots() if result]` iterates that pair and
keeps the truthy (non-empty) strings, and then `output = result[0]` takes the
first character of each kept string, so only that one-character string is ever
split into lines and parsed. -/
def find_table_snapshots (keyspace table : String) (stdout stderr : String) :
    List String :=
  let results := [stdout, stderr].filter (fun s => s != "")
  (results.map (fun result =>
    (((splitlines (firstChar result)).filterMap parse_snapshot).filter
      (fun sn => sn.keyspace == keyspace && sn.table == table)).map
        (fun sn => sn.name))).flatten

end Node

namespace Cluster

/-- Model of `Cluster.find_table_compactions` (`cluster.py` lines 83-93):
fan out the per-node discovery, then flatten the gathered results with the
list comprehension modelled by `flatten_gather_results`.  Each entry of
`nodeOutputs` is one node's `nodetool compactionstats` stdout, or the
exception that node's task raised. -/
def find_table_compactions (keyspace table : String)
    (nodeOutputs : List (Except PyErr String)) : Except PyErr (List String) :=
  flatten_gather_results
    (gather_return_exceptions
      (nodeOutputs.map (Except.map (Node.find_table_compactions keyspace table))))

end Cluster

/-- Terminal outcome of `Node.restart`: the `return True` of a successful
health poll, or the `raise TimeoutError(...)` after the loop exhausts its
time bound. -/
inductive RestartOutcome
  | healthy
  | timedOut
  deriving Repr, DecidableEq

namespace Node

/-- Model of the polling loop of `Node.restart` (`node.py` lines 60-65):

`start_time = time.time(); while time.time() - start_time < 300:
 if self.is_up(): return True; time.sleep(2)`, then `raise TimeoutError`.

Time is the elapsed seconds since `start_time`, advanced by the
`time.sleep(2)` separating poll attempts (the polls themselves are treated as
instantaneous); `health n` is what the n-th call of `is_up` reports.  The
value returned is (outcome, number of polls performed, final elapsed time).
The bound 300 and the sleep 2 are hardcoded in the source; `restart` takes no
timeout or poll-interval parameter. -/
def restart_loop (health : Nat → Bool) (elapsed polls : Nat) :
    RestartOutcome × Nat × Nat :=
  if h : elapsed < 300 then
    if health polls then (.healthy, polls + 1, elapsed)
    else restart_loop health (elapsed + 2) (polls + 1)
  else (.timedOut, polls, elapsed)
  termination_by 300 - elapsed
  decreasing_by omega

/-- Model of `Node.restart`: issue `stop` then `start` unconditionally, then
run the health-polling loop from elapsed time 0. -/
def restart (health : Nat → Bool) : List String × (RestartOutcome × Nat × Nat) :=
  (["sudo systemctl stop cassandra", "sudo systemctl start cassandra"],
    restart_loop health 0 0)

end Node

namespace GeomesaCassandra

/-- Model of `run_command` (`geomesa_cassandra.py` lines 199-214) applied to
the outcome of the remote execution: an exception raised by the ssh
connect/run propagates; otherwise, when stderr is non-empty it is logged at
error severity and, only if `raise_error` was passed,
`raise Exception(f'Command Error: ...')` is executed.  The exit status is
never consulted here. -/
def run_command (raise_error : Bool) (result : Except PyErr CommandResult) :
    Except PyErr CommandResult :=
  match result with
  | .error e => .error e
  | .ok r =>
    if raise_error && r.stderr != "" then .error (.commandError r.stderr)
    else .ok r

/-- Model of `stop_compaction` (`geomesa_cassandra.py` lines 127-129): the one
`run_command` call is made with `raise_error=True`, and the surrounding
`asyncio.gather` is used without `return_exceptions`, so the raise
propagates. -/
def stop_compaction (result : Except PyErr CommandResult) :
    Except PyErr CommandResult :=
  run_command true result

/-- Model of `get_output_or_raise` (`geomesa_cassandra.py` lines 229-235): a
gathered result that is a captured exception is re-raised; a result with a
non-zero exit status raises `Exception(result.stderr)`; otherwise the stdout
is returned. -/
def get_output_or_raise (result : Except PyErr CommandResult) :
    Except PyErr String :=
  match result with
  | .error e => .error e
  | .ok r => if r.exit_status != 0 then .error (.exception r.stderr) else .ok r.stdout

/-- The per-node remote-command outcomes a run of `remove_table` observes:
for each command the pipeline can issue, what executing it on the given node
yields (`Except.error` standing for a raised exception).  This is the
explicit-state rendering of the cluster the pipeline talks to. -/
structure World where
  nodes : List String
  keyspace : String
  table : String
  flushRes : String → Except PyErr CommandResult
  compactionstatsRes : String → Except PyErr CommandResult
  stopRes : String → String → Except PyErr CommandResult
  truncateRes : Except PyErr CommandResult
  listsnapshotsRes : String → Except PyErr CommandResult
  clearRes : String → SnapshotRecord → Except PyErr CommandResult
  repairRes : String → Except PyErr CommandResult
  cleanupRes : String → Except PyErr CommandResult
  compactRes : String → Except PyErr CommandResult

/-- Model of the record-collection loop of `find_table_compactions`
(`geomesa_cassandra.py` lines 99-111): for each node in order,
`get_output_or_raise` the gathered `nodetool compactionstats` result (an
exception here propagates out of the loop at once), parse the stdout line by
line, and keep `(node, compaction id)` for the records of the requested
keyspace and table.  `statsRes` is the per-node outcome of
`nodetool compactionstats`. -/
def collect_compactions (keyspace table : String)
    (statsRes : String → Except PyErr CommandResult) :
    List String → Except PyErr (List (String × String))
  | [] => .ok []
  | n :: rest =>
    match get_output_or_raise (statsRes n) with
    | .error e => .error e
    | .ok out =>
      match collect_compactions keyspace table statsRes rest with
      | .error e => .error e
      | .ok more =>
        .ok (((((splitlines out).filterMap parse_compaction).filter
          (fun c => c.keyspace == keyspace && c.table == table)).map
            (fun c => (n, c.id))) ++ more)

/-- Model of `find_table_compactions` (`geomesa_cassandra.py`), run over the
pipeline's node list. -/
def find_table_compactions (keyspace table : String)
    (statsRes : String → Except PyErr CommandResult) (nodes : List String) :
    Except PyErr (List (String × String)) :=
  collect_compactions keyspace table statsRes nodes

/-- Model of the loop of `stop_compations_of_table`: each discovered
compaction is cancelled with `stop_compaction`, whose raise (on a captured
exception or non-empty stderr) propagates.  `stopRes` is the per-node,
per-compaction-id outcome of `nodetool stop -id`. -/
def stop_all_compactions (stopRes : String → String → Except PyErr CommandResult) :
    List (String × String) → Except PyErr Unit
  | [] => .ok ()
  | (n, cid) :: rest =>
    match stop_compaction (stopRes n cid) with
    | .error e => .error e
    | .ok _ => stop_all_compactions stopRes rest

/-- Model of `stop_compations_of_table` (`geomesa_cassandra.py` lines 93-96;
the name's spelling is the source's): discover, then stop each discovered
compaction. -/
def stop_compations_of_table (keyspace table : String)
    (statsRes : String → Except PyErr CommandResult)
    (stopRes : String → String → Except PyErr CommandResult)
    (nodes : List String) : Except PyErr Unit :=
  match find_table_compactions keyspace table statsRes nodes with
  | .error e => .error e
  | .ok comps => stop_all_compactions stopRes comps

/-- Model of the record-collection loop of `find_table_snapshots`
(`geomesa_cassandra.py` lines 148-159): mirror image of
`collect_compactions`, keeping the full snapshot record with its owning
node.  `listRes` is the per-node outcome of `nodetool listsnapshots`. -/
def collect_snapshots (keyspace table : String)
    (listRes : String → Except PyErr CommandResult) :
    List String → Except PyErr (List (String × SnapshotRecord))
  | [] => .ok []
  | n :: rest =>
    match get_output_or_raise (listRes n) with
    | .error e => .error e
    | .ok out =>
      match collect_snapshots keyspace table listRes rest with
      | .error e => .error e
      | .ok more =>
        .ok (((((splitlines out).filterMap parse_snapshot).filter
          (fun s => s.keyspace == keyspace && s.table == table)).map
            (fun s => (n, s))) ++ more)

/-- Model of `find_table_snapshots` (`geomesa_cassandra.py`), run over the
pipeline's node list. -/
def find_table_snapshots (keyspace table : String)
    (listRes : String → Except PyErr CommandResult) (nodes : List String) :
    Except PyErr (List (String × SnapshotRecord)) :=
  collect_snapshots keyspace table listRes nodes

/-- One step of the `remove_table` pipeline, in source order. -/
inductive Step
  | flush
  | stopCompactions
  | truncate
  | clearSnapshots
  | repair
  | cleanup
  | compact
  deriving Repr, DecidableEq

/-- Model of `remove_table` (`geomesa_cassandra.py` lines 66-85).  Returned
are the steps whose body was entered, in order, and the exception that
escaped `remove_table` (if any).

Faithful control flow: `flush_table`, `truncate_table`, the clearsnapshot
commands of `clear_table_snapshots`, `repair_table`, `cleanup_table` and
`compact_table` all gather with `return_exceptions=True` and their result
lists are discarded, so failures there are captured values that the pipeline
never inspects; but an exception from `get_output_or_raise` inside the
discovery of `stop_compations_of_table` or `clear_table_snapshots`, or from
`stop_compaction` (`raise_error=True`), propagates and aborts the run. -/
def remove_table (w : World) : List Step × Option PyErr :=
  let _flush := gather_return_exceptions
    (w.nodes.map (fun n => run_command false (w.flushRes n)))
  match stop_compations_of_table w.keyspace w.table w.compactionstatsRes w.stopRes w.nodes with
  | .error e => ([Step.flush, Step.stopCompactions], some e)
  | .ok _ =>
    let _truncate := run_command false w.truncateRes
    match find_table_snapshots w.keyspace w.table w.listsnapshotsRes w.nodes with
    | .error e =>
      ([Step.flush, Step.stopCompactions, Step.truncate, Step.clearSnapshots], some e)
    | .ok snaps =>
      let _clear := gather_return_exceptions
        (snaps.map (fun p => run_command false (w.clearRes p.1 p.2)))
      let _repair := gather_return_exceptions
        (w.nodes.map (fun n => run_command false (w.repairRes n)))
      let _cleanup := gather_return_exceptions
        (w.nodes.map (fun n => run_command false (w.cleanupRes n)))
      let _compact := gather_return_exceptions
        (w.nodes.map (fun n => run_command false (w.compactRes n)))
      ([Step.flush, Step.stopCompactions, Step.truncate, Step.clearSnapshots,
        Step.repair, Step.cleanup, Step.compact], none)

end GeomesaCassandra

namespace Node

/-- The method names defined by `class Node` in `node.py`, in source order
(`_parse_compaction_output` and `_parse_snapshot` are spelled as in the
source). -/
def methodNames : List String :=
  ["info", "status", "is_up", "restart", "start", "stop", "flush_table",
   "compactionstats", "find_table_compactions", "async_find_table_compactions",
   "stop_table_compactions", "stop_compaction", "_parse_compaction_output",
   "listsnapshots", "clear_table_snapshots", "find_table_snapshots",
   "async_find_table_snapshots", "_parse_snapshot", "repair_table",
   "cleanup_table", "compact_table", "cqlsh", "_run"]

/-- The method names defined by `class Remote` in `remote.py`, the only base
class of `Node`. -/
def remoteMethodNames : List String :=
  ["__init__", "async_run_command", "run"]

/-- Python attribute resolution for a method name on a `Node` instance:
found on `Node` itself or inherited from `Remote`. -/
def resolves_method (m : String) : Bool :=
  methodNames.contains m || remoteMethodNames.contains m

/-- What a call of a generator-returning method yields: the generator object
(body not yet run), or an exception raised before the generator exists. -/
inductive CallResult
  | generator
  | raised (e : PyErr)
  deriving Repr, DecidableEq

/-- Model of calling `Node.clear_table_snapshots(keyspace, table, async_)`
(`node.py` lines 119-123).  The body is a generator expression, and Python
evaluates the leftmost `for` iterable of a generator expression eagerly, at
generator-creation time: here `self._find_table_snapshots(keyspace, table)`.
When that attribute resolves, the snapshot discovery (a remote
`nodetool listsnapshots`) therefore runs at call time; when it does not, the
call raises `AttributeError` at once.  Returned are the call's result and the
remote commands issued by the call itself (before any iteration of the
generator). -/
def clear_table_snapshots_call : CallResult × List String :=
  if resolves_method "_find_table_snapshots" then
    (CallResult.generator, ["nodetool listsnapshots"])
  else
    (CallResult.raised PyErr.attributeError, [])

end Node

namespace GeomesaCassandra

/-- A command result with empty output, empty stderr and exit status 0. -/
def okResult : CommandResult :=
  { stdout := "", stderr := "", exit_status := 0 }

/-- A one-node world in which every remote command succeeds with empty
output: no compactions and no snapshots are discovered, nothing fails. -/
def wBase : World :=
  { nodes := ["10.0.0.1"]
  , keyspace := "ks1"
  , table := "tbl1"
  , flushRes := fun _ => .ok okResult
  , compactionstatsRes := fun _ => .ok okResult
  , stopRes := fun _ _ => .ok okResult
  , truncateRes := .ok okResult
  , listsnapshotsRes := fun _ => .ok okResult
  , clearRes := fun _ _ => .ok okResult
  , repairRes := fun _ => .ok okResult
  , cleanupRes := fun _ => .ok okResult
  , compactRes := fun _ => .ok okResult }

/-- The base world, except that `nodetool flush` raises on the node (a
genuine execution error: the ssh dispatch fails). -/
def wFlushFail : World :=
  { wBase with flushRes := fun _ => .error (.exception "conn refused") }

/-- The base world, except that `nodetool compactionstats` raises on the
node, so the discovery of step 2 fails. -/
def wCompactionsFail : World :=
  { wBase with compactionstatsRes := fun _ => .error (.exception "conn refused") }

end GeomesaCassandra

/-! Theorems about the claims. -/

/-- C1: for every cluster of N ≥ 1 nodes and every per-node operation
dispatched through the coordinator's fan-out (`Cluster._run` over one task
per node), the returned list has exactly N entries whose order matches the
node list, and each entry is that node's standalone outcome — its success
value or its captured error — so one node's raised exception never removes,
reorders, or alters the other N−1 results. -/
theorem fanout_returns_ordered_per_node_results {α : Type}
    (nodes : List String) (op : String → Except PyErr α) :
    (Cluster.run nodes op).length = nodes.length ∧
      ∀ i : Nat, (Cluster.run nodes op)[i]? = (nodes[i]?).map op := by
  constructor
  · simp [Cluster.run, gather_return_exceptions]
  · intro i
    simp [Cluster.run, gather_return_exceptions]

/-- C2 counterexample: in a one-node world whose `nodetool flush` raises a
genuine execution error while every other command succeeds, `remove_table`
still enters every one of steps 2-6 and finishes without reporting any
failure — refuting the claim that a failing flush aborts the pipeline and is
reported. -/
theorem remove_table_runs_all_steps_after_flush_error :
    GeomesaCassandra.remove_table GeomesaCassandra.wFlushFail
      = ([GeomesaCassandra.Step.flush, GeomesaCassandra.Step.stopCompactions,
          GeomesaCassandra.Step.truncate, GeomesaCassandra.Step.clearSnapshots,
          GeomesaCassandra.Step.repair, GeomesaCassandra.Step.cleanup,
          GeomesaCassandra.Step.compact], none) := by
  decide

/-- C2 amended: `remove_table` never inspects the gathered flush results —
for every world, replacing the flush outcomes by any others (including
errors) leaves the run identical, and the pipeline always proceeds from step
1 (flush) into step 2 (stop compactions) rather than aborting. -/
theorem remove_table_ignores_flush_results
    (w : GeomesaCassandra.World) (f : String → Except PyErr CommandResult) :
    GeomesaCassandra.remove_table { w with flushRes := f }
        = GeomesaCassandra.remove_table w ∧
      (GeomesaCassandra.remove_table w).1[0]? = some GeomesaCassandra.Step.flush ∧
      (GeomesaCassandra.remove_table w).1[1]? = some GeomesaCassandra.Step.stopCompactions := by
  refine ⟨rfl, ?_, ?_⟩ <;>
  · unfold GeomesaCassandra.remove_table
    cases GeomesaCassandra.stop_compations_of_table w.keyspace w.table
        w.compactionstatsRes w.stopRes w.nodes with
    | error e => rfl
    | ok u =>
      cases GeomesaCassandra.find_table_snapshots w.keyspace w.table
          w.listsnapshotsRes w.nodes with
      | error e => rfl
      | ok s => rfl

/-- C3 counterexample: in a one-node world whose `nodetool compactionstats`
raises (a step 2 discovery failure) while everything else would succeed, the
pipeline aborts: the raise escapes `remove_table` and steps 3-6 are never
attempted — refuting the claim that step 2 failures are confined to the node
and do not abort the pipeline. -/
theorem remove_table_aborts_on_compaction_discovery_error :
    GeomesaCassandra.remove_table GeomesaCassandra.wCompactionsFail
        = ([GeomesaCassandra.Step.flush, GeomesaCassandra.Step.stopCompactions],
           some (PyErr.exception "conn refused")) ∧
      GeomesaCassandra.Step.truncate
          ∉ (GeomesaCassandra.remove_table GeomesaCassandra.wCompactionsFail).1 ∧
      GeomesaCassandra.Step.repair
          ∉ (GeomesaCassandra.remove_table GeomesaCassandra.wCompactionsFail).1 := by
  decide

/-- C3 amended: failures in the fire-and-forget fan-outs (the clearsnapshot
commands of step 4 and the repair/cleanup/compact commands of step 5) are
captured per node and never alter the run; but a failure raised during the
discovery-and-stop of step 2, or during the snapshot discovery of step 4,
escapes `remove_table` and aborts the pipeline with the later steps
unattempted. -/
theorem remove_table_step_confinement (w : GeomesaCassandra.World)
    (q : String → SnapshotRecord → Except PyErr CommandResult)
    (r c p : String → Except PyErr CommandResult) :
    GeomesaCassandra.remove_table
        { w with clearRes := q, repairRes := r, cleanupRes := c, compactRes := p }
      = GeomesaCassandra.remove_table w ∧
    (∀ e, GeomesaCassandra.stop_compations_of_table w.keyspace w.table
          w.compactionstatsRes w.stopRes w.nodes = .error e →
      GeomesaCassandra.remove_table w
        = ([GeomesaCassandra.Step.flush, GeomesaCassandra.Step.stopCompactions], some e)) ∧
    (∀ e, GeomesaCassandra.stop_compations_of_table w.keyspace w.table
          w.compactionstatsRes w.stopRes w.nodes = .ok () →
      GeomesaCassandra.find_table_snapshots w.keyspace w.table
          w.listsnapshotsRes w.nodes = .error e →
      GeomesaCassandra.remove_table w
        = ([GeomesaCassandra.Step.flush, GeomesaCassandra.Step.stopCompactions,
            GeomesaCassandra.Step.truncate, GeomesaCassandra.Step.clearSnapshots], some e)) := by
  refine ⟨rfl, ?_, ?_⟩
  · intro e h
    unfold GeomesaCassandra.remove_table
    rw [h]
  · intro e h1 h2
    unfold GeomesaCassandra.remove_table
    rw [h1, h2]

/-- C3 witness: the amended step-confinement theorem applied to the concrete
world whose compaction discovery fails. -/
theorem remove_table_step_confinement_witness :
    GeomesaCassandra.stop_compations_of_table GeomesaCassandra.wCompactionsFail.keyspace
        GeomesaCassandra.wCompactionsFail.table
        GeomesaCassandra.wCompactionsFail.compactionstatsRes
        GeomesaCassandra.wCompactionsFail.stopRes
        GeomesaCassandra.wCompactionsFail.nodes
      = Except.error (PyErr.exception "conn refused") ∧
    GeomesaCassandra.remove_table GeomesaCassandra.wCompactionsFail
      = ([GeomesaCassandra.Step.flush, GeomesaCassandra.Step.stopCompactions],
         some (PyErr.exception "conn refused")) := by
  have h : GeomesaCassandra.stop_compations_of_table GeomesaCassandra.wCompactionsFail.keyspace
      GeomesaCassandra.wCompactionsFail.table
      GeomesaCassandra.wCompactionsFail.compactionstatsRes
      GeomesaCassandra.wCompactionsFail.stopRes
      GeomesaCassandra.wCompactionsFail.nodes
      = Except.error (PyErr.exception "conn refused") := by decide
  exact ⟨h, (remove_table_step_confinement GeomesaCassandra.wCompactionsFail
    GeomesaCassandra.wCompactionsFail.clearRes GeomesaCassandra.wCompactionsFail.repairRes
    GeomesaCassandra.wCompactionsFail.cleanupRes GeomesaCassandra.wCompactionsFail.compactRes).2.1
    (PyErr.exception "conn refused") h⟩

/-- C4: the coordinator's `find_table_compactions` flattens the gathered
per-node results with a list comprehension that iterates each entry, so on a
two-node cluster where node A reports one matching record and node B's task
raised, the captured exception value is iterated and a `TypeError` escapes
the coordinator — the flattened record list of the surviving node is lost —
whereas all-success clusters flatten correctly.  This contradicts the claimed
(and evidently intended, given `return_exceptions=True`) capture-as-values
policy. -/
theorem cluster_find_table_compactions_raises_on_node_error :
    Node.find_table_compactions "ks1" "tbl1" "c1  COMPACTION  ks1  tbl1" = ["c1"] ∧
    Cluster.find_table_compactions "ks1" "tbl1"
        [Except.ok "c1  COMPACTION  ks1  tbl1", Except.error (PyErr.exception "ssh failure")]
      = Except.error PyErr.typeError ∧
    Cluster.find_table_compactions "ks1" "tbl1"
        [Except.ok "c1  COMPACTION  ks1  tbl1", Except.ok ""]
      = Except.ok ["c1"] := by
  decide

/-- C5: the snapshot line parser itself maps "snap1  ks1  tbl1" to exactly
the claimed record, but `Node.find_table_snapshots` iterates the
`(stdout, stderr)` pair returned by `listsnapshots` and takes `result[0]` —
the first character of the string — so the matching snapshot line is never
parsed and the returned list is empty instead of containing the record. -/
theorem node_find_table_snapshots_drops_matching_snapshot :
    parse_snapshot "snap1  ks1  tbl1"
        = some { name := "snap1", keyspace := "ks1", table := "tbl1" } ∧
      Node.firstChar "snap1  ks1  tbl1" = "s" ∧
      Node.find_table_snapshots "ks1" "tbl1" "snap1  ks1  tbl1" "" = [] := by
  decide

/-- Helper for C6: from any even remaining budget `2 * j` (with `j ≤ 150`
poll opportunities left), an always-false health predicate drives the polling
loop to the timeout raise, after exactly `j` further polls, at elapsed time
300. -/
theorem restart_loop_all_false (health : Nat → Bool) (hf : ∀ n, health n = false) :
    ∀ j, j ≤ 150 → ∀ polls,
      Node.restart_loop health (300 - 2 * j) polls
        = (RestartOutcome.timedOut, polls + j, 300) := by
  intro j
  induction j with
  | zero =>
    intro _ polls
    rw [Node.restart_loop.eq_def]
    norm_num
  | succ k ih =>
    intro hk polls
    rw [Node.restart_loop.eq_def]
    rw [dif_pos (by omega : 300 - 2 * (k + 1) < 300)]
    rw [hf polls]
    simp only [Bool.false_eq_true, if_false]
    have harith : 300 - 2 * (k + 1) + 2 = 300 - 2 * k := by omega
    rw [harith, ih (by omega) (polls + 1)]
    have heq : polls + 1 + k = polls + (k + 1) := by omega
    rw [heq]

/-- Helper for C6: the polling loop always terminates, either by a successful
health poll or by the timeout raise at elapsed time 300. -/
theorem restart_loop_total (health : Nat → Bool) :
    ∀ j, j ≤ 150 → ∀ polls,
      (Node.restart_loop health (300 - 2 * j) polls).1 = RestartOutcome.healthy ∨
        Node.restart_loop health (300 - 2 * j) polls
          = (RestartOutcome.timedOut, polls + j, 300) := by
  intro j
  induction j with
  | zero =>
    intro _ polls
    right
    rw [Node.restart_loop.eq_def]
    norm_num
  | succ k ih =>
    intro hk polls
    rw [Node.restart_loop.eq_def]
    rw [dif_pos (by omega : 300 - 2 * (k + 1) < 300)]
    cases hh : health polls with
    | true => left; simp
    | false =>
      simp only [Bool.false_eq_true, if_false]
      have harith : 300 - 2 * (k + 1) + 2 = 300 - 2 * k := by omega
      rw [harith]
      rcases ih (by omega) (polls + 1) with h | h
      · left; exact h
      · right
        rw [h]
        have heq : polls + 1 + k = polls + (k + 1) := by omega
        rw [heq]

/-- C6 counterexample: with a health predicate that always returns false,
`restart` performs 150 polls and raises its timeout only at elapsed time 300
seconds — the 300-second bound and the 2-second sleep are hardcoded,
`restart` accepts no timeout or poll-interval parameter, so the claimed
configuration `timeout=10s` does not exist: polling continues far past 10
seconds and 10 is not the bound at which it stops. -/
theorem restart_polls_past_claimed_timeout :
    (Node.restart (fun _ => false)).2 = (RestartOutcome.timedOut, 150, 300) ∧
      (Node.restart (fun _ => false)).2.2.2 ≠ 10 := by
  have h := restart_loop_all_false (fun _ => false) (fun _ => rfl) 150 (by omega) 0
  norm_num at h
  have h2 : (Node.restart (fun _ => false)).2 = (RestartOutcome.timedOut, 150, 300) := h
  refine ⟨h2, ?_⟩
  rw [h2]
  decide

/-- C6 amended: `restart` terminates for every health predicate — it issues
stop then start, polls health with each attempt separated by a 2-second
sleep, and either a poll succeeds or, once elapsed time reaches the hardcoded
300-second bound, it stops polling and raises `TimeoutError` to the caller
(never silently swallowed); in particular with health always false it
completes at elapsed time ≥ 300 seconds with the timeout raise, after
exactly 150 polls. -/
theorem restart_terminates_with_fixed_timeout (health : Nat → Bool) :
    ((Node.restart health).2.1 = RestartOutcome.healthy ∨
        (Node.restart health).2 = (RestartOutcome.timedOut, 150, 300)) ∧
      ((∀ n, health n = false) →
        (Node.restart health).2 = (RestartOutcome.timedOut, 150, 300) ∧
          300 ≤ (Node.restart health).2.2.2) ∧
      (Node.restart health).1
        = ["sudo systemctl stop cassandra", "sudo systemctl start cassandra"] := by
  refine ⟨?_, ?_, rfl⟩
  · have h := restart_loop_total health 150 (by omega) 0
    norm_num at h
    exact h
  · intro hf
    have h := restart_loop_all_false health hf 150 (by omega) 0
    norm_num at h
    have h2 : (Node.restart health).2 = (RestartOutcome.timedOut, 150, 300) := h
    refine ⟨h2, ?_⟩
    rw [h2]

/-- C6 witness: the amended termination theorem applied to the always-false
health predicate. -/
theorem restart_terminates_with_fixed_timeout_witness :
    (Node.restart (fun _ => false)).2 = (RestartOutcome.timedOut, 150, 300) ∧
      300 ≤ (Node.restart (fun _ => false)).2.2.2 :=
  (restart_terminates_with_fixed_timeout (fun _ => false)).2.1 (fun _ => rfl)

/-- Health predicate of claim C7: false on the first two polls, true on the
third. -/
def healthFalseFalseTrue : Nat → Bool := fun n =>
  match n with
  | 0 => false
  | 1 => false
  | _ => true

/-- C7: against a node whose health check returns false on the first two
evaluations and true on the third, `restart` returns the success outcome
after exactly 3 health polls — no more, no fewer (the third poll happens at
elapsed time 4, after two 2-second sleeps). -/
theorem restart_healthy_after_three_polls :
    Node.restart healthFalseFalseTrue
      = (["sudo systemctl stop cassandra", "sudo systemctl start cassandra"],
         (RestartOutcome.healthy, 3, 4)) := by
  unfold Node.restart
  rw [Node.restart_loop.eq_def]; norm_num [healthFalseFalseTrue]
  rw [Node.restart_loop.eq_def]; norm_num [healthFalseFalseTrue]
  rw [Node.restart_loop.eq_def]; norm_num [healthFalseFalseTrue]

/-- C8: given exactly the two input lines "c1  COMPACTION  ks1  tbl1" and
"-- header --", the compaction parser yields exactly one record
(id c1, kind COMPACTION, keyspace ks1, table tbl1) and silently skips the
header line, returning no record for it and raising no error. -/
theorem parse_compaction_record_and_header :
    parse_compaction "c1  COMPACTION  ks1  tbl1"
        = some { id := "c1", kind := "COMPACTION", keyspace := "ks1", table := "tbl1" } ∧
      parse_compaction "-- header --" = none ∧
      ["c1  COMPACTION  ks1  tbl1", "-- header --"].filterMap parse_compaction
        = [{ id := "c1", kind := "COMPACTION", keyspace := "ks1", table := "tbl1" }] := by
  decide

/-- C9 counterexample: `stop_compaction` executes its command through
`run_command` with `raise_error=True`, and `run_command` never consults the
exit status — a result with exit status 0 and non-empty stderr makes it
raise, so an exception is raised solely because stderr is non-empty,
refuting the claim that no operation fails on stderr alone and that failure
is decided by exit status. -/
theorem run_command_raises_on_stderr_with_zero_exit :
    GeomesaCassandra.stop_compaction
        (Except.ok { stdout := "", stderr := "warning", exit_status := 0 })
      = Except.error (PyErr.commandError "warning") := by
  decide

/-- C9 amended: with the default `raise_error=False` (used by every pipeline
command except `stop_compaction`), a result with non-empty stderr is logged
at error severity but never by itself makes `run_command` raise; but
`run_command` never consults the exit status either, and the
`raise_error=True` path used by `stop_compaction` raises exactly when stderr
is non-empty — so stopping a compaction id that no longer exists is accepted
as success precisely when the tool reports no error on stderr. -/
theorem run_command_stderr_advisory_without_raise_error (r : CommandResult) :
    GeomesaCassandra.run_command false (Except.ok r) = Except.ok r ∧
      (r.stderr = "" → GeomesaCassandra.stop_compaction (Except.ok r) = Except.ok r) ∧
      (r.stderr ≠ "" → GeomesaCassandra.stop_compaction (Except.ok r)
          = Except.error (PyErr.commandError r.stderr)) := by
  refine ⟨rfl, ?_, ?_⟩
  · intro h
    simp [GeomesaCassandra.stop_compaction, GeomesaCassandra.run_command, h]
  · intro h
    simp [GeomesaCassandra.stop_compaction, GeomesaCassandra.run_command, h]

/-- C9 witness: the advisory-stderr theorem applied to a success result with
informational stderr (not raised with the default flag) and to the
empty-stderr result of a best-effort `stop_compaction`. -/
theorem run_command_stderr_advisory_without_raise_error_witness :
    GeomesaCassandra.run_command false
        (Except.ok { stdout := "done", stderr := "note", exit_status := 0 })
      = Except.ok { stdout := "done", stderr := "note", exit_status := 0 } ∧
    GeomesaCassandra.stop_compaction
        (Except.ok { stdout := "", stderr := "", exit_status := 0 })
      = Except.ok { stdout := "", stderr := "", exit_status := 0 } :=
  ⟨(run_command_stderr_advisory_without_raise_error
      { stdout := "done", stderr := "note", exit_status := 0 }).1,
   (run_command_stderr_advisory_without_raise_error
      { stdout := "", stderr := "", exit_status := 0 }).2.1 rfl⟩

/-- C10 counterexample: calling `Node.clear_table_snapshots` does not return
a lazy generator at all — the generator expression's leftmost iterable,
`self._find_table_snapshots(keyspace, table)`, is evaluated at call time,
and no method of that name exists on `Node` or `Remote`, so the call raises
`AttributeError` immediately. -/
theorem clear_table_snapshots_call_raises :
    Node.clear_table_snapshots_call.1 = Node.CallResult.raised PyErr.attributeError ∧
      Node.clear_table_snapshots_call.1 ≠ Node.CallResult.generator := by
  decide

/-- C10 amended: calling `Node.clear_table_snapshots` issues no remote
command — but not by laziness: the method named by the eagerly evaluated
leftmost iterable, `_find_table_snapshots`, does not resolve (the defined
method is `find_table_snapshots`), so every call raises `AttributeError`
before any command is issued and nothing is ever available to iterate. -/
theorem clear_table_snapshots_no_generator_no_command :
    Node.resolves_method "_find_table_snapshots" = false ∧
      Node.resolves_method "find_table_snapshots" = true ∧
      Node.clear_table_snapshots_call
        = (Node.CallResult.raised PyErr.attributeError, []) := by
  decide
